import Mathlib

/-! # Group2IoTWS25: three firmware sketches

A shallow embedding of the three nodes of the repository:

* `MqttNode`  : `src/main.cpp`, the Wi-Fi/MQTT client (periodic publish of two temperatures);
* `HttpNode`  : `src/project/esp/src/main.cpp`, the Wi-Fi/HTTP node (`/set` actuator endpoint
  and the periodic DHT11 forwarder);
* `BleNode`   : `src/project/thingy53/src/main.c`, the BLE peripheral (BME680 notifier).

Conventions.  `unsigned long` is the 32-bit unsigned integer of the ESP32: a natural number
below `2 ^ 32`, with subtraction taken modulo `2 ^ 32`.  Every call of the hardware or of a
vendor library whose result the code branches on (`millis()`, `random(100)`,
`dht.readTemperature()`, `WiFi.status()`, `sensor_sample_fetch`, ...) is an explicit input
of the embedded function; every call that acts on the outside world (`digitalWrite`,
`server.send`, `http.POST`, MQTT publish, `bt_gatt_notify`) is an entry of the returned
effect list, in program order.  Output on the serial console / log is not modelled.
-/

/-! ## Machine arithmetic shared by the two Arduino sketches -/

/-- Number of values of a 32-bit `unsigned long`. -/
def ULONG_MOD : Nat := 4294967296

/-- Subtraction `a - b` of two `unsigned long` values (both below `2 ^ 32`): the result
wraps around modulo `2 ^ 32`. -/
def ulongSub (a b : Nat) : Nat := (a + ULONG_MOD - b) % ULONG_MOD

/-- Conversion of a signed `long`/`int` to `unsigned long`, as C performs it on the right
operand of a comparison whose left operand is `unsigned long`. -/
def toULong (x : Int) : Nat := (x % (ULONG_MOD : Int)).toNat

/-! ## The MQTT node (`src/main.cpp`) -/

namespace MqttNode

/-- Source: `const char topic_pub_living_temp[]`. -/
def topic_pub_living_temp : String := "myhome/livingroom/temperature"

/-- Source: `const char topic_pub_bed_temp[]`. -/
def topic_pub_bed_temp : String := "myhome/bedroom/temperature"

/-- Source: `const long interval = 10000;`. -/
def interval : Int := 10000

/-- One message handed to the MQTT client by `beginMessage(topic, retain, qos)`,
`print(value)`, `endMessage()`. -/
structure Message where
  topic : String
  retain : Bool
  qos : Nat
  value : ℚ
deriving DecidableEq

/-- The only global that `loop` mutates: `unsigned long previousMillis = 0;`. -/
structure State where
  previousMillis : Nat
deriving DecidableEq

/-- The state after `setup()`: `previousMillis` still holds its initialiser `0`. -/
def initial : State := ⟨0⟩

/-- Source: `20.0 + (random(100) / 10.0)`, for the draw `r` returned by `random(100)`. -/
def tempLiving (r : Nat) : ℚ := 20 + (r : ℚ) / 10

/-- Source: `18.0 + (random(100) / 10.0)`, for the draw `r` returned by `random(100)`. -/
def tempBed (r : Nat) : ℚ := 18 + (r : ℚ) / 10

/-- One call of `loop()`.  `currentMillis` is the value returned by `millis()`; `r1` and `r2`
are the values the two `random(100)` calls return when the publish block runs.  The result
is the new state and the messages published by this call, in order.
`mqttClient.poll()` only feeds `onMqttMessage`, which prints and touches no state. -/
def loop (s : State) (currentMillis r1 r2 : Nat) : State × List Message :=
  if ulongSub currentMillis s.previousMillis ≥ toULong interval then
    (⟨currentMillis⟩,
      [⟨topic_pub_living_temp, false, 1, tempLiving r1⟩,
       ⟨topic_pub_bed_temp, false, 1, tempBed r2⟩])
  else
    (s, [])

/-- The publish block ran in a call of `loop` exactly when that call published something. -/
def publishRan (r : State × List Message) : Bool := !r.2.isEmpty

/-- The messages of one firing whose draws are `p`. -/
def firing (p : Nat × Nat) : List Message :=
  [⟨topic_pub_living_temp, false, 1, tempLiving p.1⟩,
   ⟨topic_pub_bed_temp, false, 1, tempBed p.2⟩]

/-- The state in which `loop` is entered at instant `now` when, starting from `initial`,
it has been called once at each of the instants `0, 1, ..., now - 1`.  `rnd t` is the pair
of draws `random(100)` would return at instant `t`. -/
def stateBefore (rnd : Nat → Nat × Nat) : Nat → State
  | 0 => initial
  | t + 1 => (loop (stateBefore rnd t) t (rnd t).1 (rnd t).2).1

/-- The messages published by the call of `loop` at instant `now` of that run. -/
def publishedAt (rnd : Nat → Nat × Nat) (now : Nat) : List Message :=
  (loop (stateBefore rnd now) now (rnd now).1 (rnd now).2).2

/-- All messages published during the `len` consecutive instants `a, a+1, ..., a+len-1`
of that run, in order. -/
def windowTrace (rnd : Nat → Nat × Nat) (a : Nat) : Nat → List Message
  | 0 => []
  | len + 1 => windowTrace rnd a len ++ publishedAt rnd (a + len)

/-- A sample sequence of draws: `random(100)` returns 5, then 7, at every instant. -/
def sampleDraws : Nat → Nat × Nat := fun _ => (5, 7)

end MqttNode

/-! ## The HTTP node (`src/project/esp/src/main.cpp`) -/

namespace HttpNode

/-- Source: `const int ledPin = 2;`. -/
def ledPin : Nat := 2

/-- Source: `const char* pi_url`. -/
def pi_url : String := "http://192.168.0.150:8000/ingest"

/-- A C `float` as far as this sketch inspects it: whether `isnan` holds of it, and the text
`String(t)` renders it to. -/
structure CFloat where
  isnan : Bool
  text : String
deriving DecidableEq

/-- What the node does to the outside world. -/
inductive Effect where
  | digitalWrite (pin : Nat) (value : Nat)
  | send (code : Nat) (contentType : String) (content : String)
  | readTemperature
  | post (url : String) (header : String × String) (payload : String)
deriving DecidableEq

/-- The arguments of one HTTP request, as name/value pairs in the order received. -/
abbrev Args := List (String × String)

/-- Arduino `WebServer::hasArg(name)`: some argument has that name.  The comparison of two
`String` objects checks the lengths first, so for the NUL-free name it is plain equality. -/
def hasArg (args : Args) (name : String) : Bool :=
  args.any (fun p => p.1 == name)

/-- Arduino `WebServer::arg(name)`: the value of the first argument of that name, the empty
string when there is none. -/
def arg (args : Args) (name : String) : String :=
  match args.find? (fun p => p.1 == name) with
  | some p => p.2
  | none => ""

/-- The character that terminates a C string. -/
def NUL : Char := Char.ofNat 0

/-- The test `strcmp(p1, p2) == 0` of the C library on two character buffers, each followed
by its terminating NUL: the buffers are compared up to the first NUL of either. -/
def strcmpEq : List Char → List Char → Bool
  | [], [] => true
  | [], c2 :: _ => c2 == NUL
  | c1 :: _, [] => c1 == NUL
  | c1 :: p1, c2 :: p2 =>
      if c1 != c2 then false
      else if c1 == NUL then true
      else strcmpEq p1 p2

/-- Arduino `String::equals(const char *cstr)`, which is what `valStr == "1"` calls: an
empty string equals an empty literal, otherwise the buffers are compared with `strcmp`. -/
def equals (s : String) (cstr : String) : Bool :=
  if s.data.length == 0 then
    (match cstr.data with
      | [] => true
      | c :: _ => c == NUL)
  else strcmpEq s.data cstr.data

/-- The character loop of Arduino `String::equalsIgnoreCase`, `while (*p1)`: compare
position by position after `tolower`, and stop with success at the first NUL of the
receiver (an embedded one, or its terminator). -/
def equalsIgnoreCaseLoop : List Char → List Char → Bool
  | [], _ => true
  | c1 :: _, [] => c1 == NUL
  | c1 :: p1, c2 :: p2 =>
      if c1 == NUL then true
      else if c1.toLower != c2.toLower then false
      else equalsIgnoreCaseLoop p1 p2

/-- Arduino `String::equalsIgnoreCase`: strings of different length differ, two empty
strings are equal, otherwise the character loop decides. -/
def equalsIgnoreCase (s s2 : String) : Bool :=
  if s.data.length != s2.data.length then false
  else if s.data.length == 0 then true
  else equalsIgnoreCaseLoop s.data s2.data

/-- The handler registered by `server.on("/set", ...)`. -/
def setHandler (args : Args) : List Effect :=
  if hasArg args "val" then
    let valStr := arg args "val"
    let state : Nat :=
      if equalsIgnoreCase valStr "ON" || equals valStr "1" then 1
      else if equalsIgnoreCase valStr "OFF" || equals valStr "0" then 0
      else 0
    [Effect.digitalWrite ledPin state,
     Effect.send 200 "text/plain" (if state ≠ 0 then "ON" else "OFF")]
  else
    [Effect.send 400 "text/plain" "Missing 'val' argument"]

/-- The level of the LED pin after a sequence of effects, given its level before. -/
def ledLevel (before : Nat) : List Effect → Nat
  | [] => before
  | Effect.digitalWrite pin value :: rest =>
      ledLevel (if pin = ledPin then value else before) rest
  | _ :: rest => ledLevel before rest

/-- Number of `http.POST` calls in a sequence of effects. -/
def postCount : List Effect → Nat
  | [] => 0
  | Effect.post _ _ _ :: rest => postCount rest + 1
  | _ :: rest => postCount rest

/-- Whether some response with a 200 status was sent. -/
def reportsSuccess (effects : List Effect) : Bool :=
  effects.any (fun e => match e with
    | Effect.send code _ _ => code == 200
    | _ => false)

/-- Whether the LED pin was written. -/
def writesLed (effects : List Effect) : Bool :=
  effects.any (fun e => match e with
    | Effect.digitalWrite pin _ => pin == ledPin
    | _ => false)

/-- The only variable that `loop` keeps between calls: `static unsigned long lastTime = 0;`. -/
structure State where
  lastTime : Nat
deriving DecidableEq

/-- What one call of `loop()` reads from its environment. -/
structure Input where
  /-- The arguments of the request to `/set` that `server.handleClient()` serves, if any -/
  pending : Option Args
  /-- The reading of `millis()` in the condition `millis() - lastTime > 2000` -/
  millisCheck : Nat
  /-- The reading of `millis()` in the assignment `lastTime = millis()` -/
  millisSet : Nat
  /-- The result of `dht.readTemperature()` -/
  t : CFloat
  /-- The value of `WiFi.status() == WL_CONNECTED` -/
  wifiConnected : Bool

/-- Source: the JSON text built in `loop`. -/
def payload (t : CFloat) : String :=
  "\x7b\"sensor_id\": \"dht11_temp\", \"value\": " ++ t.text ++ "\x7d"

/-- Source: `server.handleClient()`, restricted to the one route this sketch registers:
a pending request to `/set` is served by `setHandler`. -/
def handleClient (pending : Option Args) : List Effect :=
  match pending with
  | some args => setHandler args
  | none => []

/-- One call of `loop()`: the new state and the effects, in order. -/
def loop (s : State) (i : Input) : State × List Effect :=
  let served := handleClient i.pending
  if ulongSub i.millisCheck s.lastTime > toULong 2000 then
    if i.t.isnan then
      (⟨i.millisSet⟩, served ++ [Effect.readTemperature])
    else if i.wifiConnected then
      (⟨i.millisSet⟩, served ++ [Effect.readTemperature,
        Effect.post pi_url ("Content-Type", "application/json") (payload i.t)])
    else
      (⟨i.millisSet⟩, served ++ [Effect.readTemperature])
  else
    (s, served)

/-- A sample input: no pending request, the clock at 5000 ms, a NaN temperature read,
Wi-Fi connected. -/
def nanInput : Input := ⟨none, 5000, 5000, ⟨true, "nan"⟩, true⟩

/-- The sense/transmit block of `loop` ran exactly when the sensor was read. -/
def blockRan (r : State × List Effect) : Bool :=
  r.2.any (fun e => e == Effect.readTemperature)

end HttpNode

/-! ## The BLE node (`src/project/thingy53/src/main.c`) -/

namespace BleNode

/-- The two globals behind the characteristics: `static int16_t temp_val = 0;` and
`static uint16_t humid_val = 0;`. -/
structure State where
  temp_val : Int
  humid_val : Nat
deriving DecidableEq

/-- The state at program start. -/
def initial : State := ⟨0, 0⟩

/-- A call of `bt_gatt_notify`: on `ess_svc.attrs[1]` (temperature) or on `ess_svc.attrs[4]`
(humidity), with the value sent. -/
inductive Effect where
  | notifyTemp (value : Int)
  | notifyHumid (value : Nat)
deriving DecidableEq

/-- What one iteration of the main loop reads from the sensor driver. -/
structure Input where
  /-- The return value of `sensor_sample_fetch(dev_bme680)` -/
  fetch : Int
  /-- The value of `(int16_t)(t * 100)` for the temperature channel of that sample -/
  temp100 : Int
  /-- The value of `(uint16_t)(h * 100)` for the humidity channel of that sample -/
  humid100 : Nat

/-- Step 2 of `main`, "CHECK SENSOR": `sensor_ok` from `device_is_ready(dev_bme680)`. -/
def sensorCheck (device_is_ready : Bool) : Bool :=
  if !device_is_ready then false else true

/-- One iteration of the `while (1)` loop of `main`. -/
def mainLoopBody (sensor_ok : Bool) (s : State) (i : Input) : State × List Effect :=
  if sensor_ok then
    if i.fetch = 0 then
      (⟨i.temp100, i.humid100⟩, [Effect.notifyTemp i.temp100, Effect.notifyHumid i.humid100])
    else
      (s, [])
  else
    (⟨2550, s.humid_val⟩, [Effect.notifyTemp 2550])

/-- The `while (1)` loop of `main`, run for as many iterations as there are inputs. -/
def mainLoop (sensor_ok : Bool) (s : State) : List Input → State × List Effect
  | [] => (s, [])
  | i :: rest =>
      let r := mainLoopBody sensor_ok s i
      let r2 := mainLoop sensor_ok r.1 rest
      (r2.1, r.2 ++ r2.2)

/-- The function `main`, observed over the first `inputs.length` iterations of its loop:
`bt_enable_err` and `adv_err` are the results of `bt_enable` and `bt_le_adv_start`, which
end the program when non-zero. -/
def main (bt_enable_err adv_err : Int) (device_is_ready : Bool) (inputs : List Input) :
    State × List Effect :=
  if bt_enable_err ≠ 0 then (initial, [])
  else if adv_err ≠ 0 then (initial, [])
  else mainLoop (sensorCheck device_is_ready) initial inputs

end BleNode

/-! ## Lemmas on the machine arithmetic -/

theorem toULong_interval : toULong MqttNode.interval = 10000 := by
  decide

theorem ulongSub_eq_emod (a b : Nat) (ha : a < ULONG_MOD) (hb : b < ULONG_MOD) :
    (ulongSub a b : Int) = ((a : Int) - (b : Int)) % 4294967296 := by
  unfold ulongSub ULONG_MOD at *
  omega

theorem ulongSub_of_le (a b : Nat) (ha : a < ULONG_MOD) (hb : b ≤ a) :
    ulongSub a b = a - b := by
  unfold ulongSub ULONG_MOD at *
  omega

theorem ulongSub_add_mod (p d : Nat) (hp : p < ULONG_MOD) (hd : d < ULONG_MOD) :
    ulongSub ((p + d) % ULONG_MOD) p = d := by
  unfold ulongSub ULONG_MOD at *
  omega

namespace MqttNode

theorem loop_ran_iff (s : State) (now r1 r2 : Nat) :
    publishRan (loop s now r1 r2) = true ↔ 10000 ≤ ulongSub now s.previousMillis := by
  unfold loop publishRan
  rw [toULong_interval]
  by_cases h : ulongSub now s.previousMillis ≥ 10000
  · simp [h]
  · simp [h]

/-- C1.  One call of the MQTT node's `loop()` as `tick(previousMillis, now)`: for all
32-bit values, the publish block runs iff `now - previousMillis` (modulo `2 ^ 32`) is at
least `10000`; when it runs `previousMillis` becomes `now`, otherwise it is unchanged; and
a second call at the same instant right after a firing does not fire. -/
theorem loop_tick (prev now r1 r2 : Nat) (hp : prev < 2 ^ 32) (hn : now < 2 ^ 32) :
    (publishRan (loop ⟨prev⟩ now r1 r2) = true ↔
        ((now : Int) - (prev : Int)) % 2 ^ 32 ≥ 10000) ∧
    (publishRan (loop ⟨prev⟩ now r1 r2) = true →
        (loop ⟨prev⟩ now r1 r2).1.previousMillis = now) ∧
    (publishRan (loop ⟨prev⟩ now r1 r2) = false →
        (loop ⟨prev⟩ now r1 r2).1.previousMillis = prev) ∧
    (publishRan (loop ⟨prev⟩ now r1 r2) = true →
        ∀ r3 r4, publishRan (loop (loop ⟨prev⟩ now r1 r2).1 now r3 r4) = false) := by
  have hp' : prev < ULONG_MOD := by unfold ULONG_MOD; omega
  have hn' : now < ULONG_MOD := by unfold ULONG_MOD; omega
  have key := ulongSub_eq_emod now prev hn' hp'
  have hiff := loop_ran_iff ⟨prev⟩ now r1 r2
  refine ⟨?_, ?_, ?_, ?_⟩
  · rw [hiff]
    simp only at key ⊢
    omega
  · intro h
    have h1 := hiff.mp h
    simp [loop, toULong_interval] at h1 ⊢
    simp [h1]
  · intro h
    have h1 : ¬ (10000 ≤ ulongSub now prev) := by
      intro hc
      have := hiff.mpr hc
      simp [h] at this
    simp [loop, toULong_interval, h1]
  · intro h r3 r4
    have h1 := hiff.mp h
    have h2 : (loop ⟨prev⟩ now r1 r2).1 = ⟨now⟩ := by
      simp [loop, toULong_interval] at h1 ⊢
      simp [h1]
    rw [h2]
    have h3 : ¬ (10000 ≤ ulongSub now now) := by
      unfold ulongSub ULONG_MOD at *
      omega
    cases hb : publishRan (loop ⟨now⟩ now r3 r4)
    · rfl
    · exact absurd ((loop_ran_iff ⟨now⟩ now r3 r4).mp hb) h3

/-- C10.  The interval check is correct across the wrap-around of `millis()`: if the true
elapsed time since `previousMillis` is `d < 2 ^ 32` and the clock therefore reads
`(previousMillis + d) mod 2 ^ 32`, the publish block runs iff `d ≥ 10000`. -/
theorem loop_wraparound (prev d r1 r2 : Nat) (hp : prev < 2 ^ 32) (hd : d < 2 ^ 32) :
    publishRan (loop ⟨prev⟩ ((prev + d) % 2 ^ 32) r1 r2) = true ↔ d ≥ 10000 := by
  have hp' : prev < ULONG_MOD := by unfold ULONG_MOD; omega
  have hd' : d < ULONG_MOD := by unfold ULONG_MOD; omega
  have h := ulongSub_add_mod prev d hp' hd'
  have e : (2 : Nat) ^ 32 = ULONG_MOD := by unfold ULONG_MOD; norm_num
  rw [loop_ran_iff, e]
  simp only
  rw [h]

theorem stateBefore_previousMillis (rnd : Nat → Nat × Nat) (n : Nat) (hn : n ≤ ULONG_MOD) :
    (stateBefore rnd n).previousMillis = 10000 * ((n - 1) / 10000) := by
  induction n with
  | zero => simp [stateBefore, initial]
  | succ t ih =>
    have iht := ih (by omega)
    have ht : t < ULONG_MOD := by omega
    have hle : 10000 * ((t - 1) / 10000) ≤ t := by omega
    have hsub := ulongSub_of_le t _ ht hle
    simp only [stateBefore, loop, toULong_interval, iht, hsub]
    by_cases hc : t - 10000 * ((t - 1) / 10000) ≥ 10000
    · simp only [hc, if_true]
      show t = 10000 * ((t + 1 - 1) / 10000)
      omega
    · simp only [hc, if_false, iht]
      show 10000 * ((t - 1) / 10000) = 10000 * ((t + 1 - 1) / 10000)
      omega

theorem publishedAt_eq (rnd : Nat → Nat × Nat) (now : Nat) (hn : now < ULONG_MOD) :
    publishedAt rnd now = if 0 < now ∧ now % 10000 = 0 then firing (rnd now) else [] := by
  have hprev := stateBefore_previousMillis rnd now (by omega)
  have hle : 10000 * ((now - 1) / 10000) ≤ now := by omega
  have hsub := ulongSub_of_le now _ hn hle
  simp only [publishedAt, loop, toULong_interval, hprev, hsub]
  by_cases hc : now - 10000 * ((now - 1) / 10000) ≥ 10000
  · have h2 : 0 < now ∧ now % 10000 = 0 := by omega
    simp only [hc, h2, if_true, and_self, firing]
  · have h2 : ¬ (0 < now ∧ now % 10000 = 0) := by omega
    simp only [hc, h2, if_false]

theorem windowTrace_eq (rnd : Nat → Nat × Nat) (a len : Nat) (ha : 1 ≤ a)
    (hlen : len ≤ 10000) (hb : a + len ≤ ULONG_MOD) :
    windowTrace rnd a len =
      if 10000 * ((a + 9999) / 10000) < a + len
      then firing (rnd (10000 * ((a + 9999) / 10000))) else [] := by
  induction len with
  | zero =>
    have h : ¬ (10000 * ((a + 9999) / 10000) < a + 0) := by omega
    simp only [windowTrace, h, if_false]
  | succ l ih =>
    have ihl := ih (by omega) (by omega)
    have hp := publishedAt_eq rnd (a + l) (by omega)
    simp only [windowTrace, ihl, hp]
    by_cases h1 : 10000 * ((a + 9999) / 10000) < a + l
    · have h2 : ¬ (0 < a + l ∧ (a + l) % 10000 = 0) := by omega
      have h3 : 10000 * ((a + 9999) / 10000) < a + (l + 1) := by omega
      simp only [h1, h2, h3, if_true, if_false, List.append_nil]
    · by_cases h4 : (a + l) % 10000 = 0
      · have h5 : a + l = 10000 * ((a + 9999) / 10000) := by omega
        have h6 : 0 < a + l ∧ (a + l) % 10000 = 0 := by omega
        have h3 : 10000 * ((a + 9999) / 10000) < a + (l + 1) := by omega
        simp only [h1, h6, h3, if_true, if_false, List.nil_append, and_self]
        rw [h5]
      · have h2 : ¬ (0 < a + l ∧ (a + l) % 10000 = 0) := by omega
        have h3 : ¬ (10000 * ((a + 9999) / 10000) < a + (l + 1)) := by omega
        simp only [h1, h2, h3, if_false, List.append_nil]

theorem windowTrace_zero_eq_nil (rnd : Nat → Nat × Nat) (len : Nat) (hlen : len ≤ 10000) :
    windowTrace rnd 0 len = [] := by
  induction len with
  | zero => rfl
  | succ l ih =>
    have hp := publishedAt_eq rnd (0 + l) (by unfold ULONG_MOD; omega)
    have h2 : ¬ (0 < 0 + l ∧ (0 + l) % 10000 = 0) := by omega
    simp only [windowTrace, ih (by omega), hp, h2, if_false, List.append_nil]

theorem firing_filter_living (p : Nat × Nat) :
    (firing p).filter (fun msg => msg.topic == topic_pub_living_temp) =
      [⟨topic_pub_living_temp, false, 1, tempLiving p.1⟩] := by
  have h1 : (topic_pub_living_temp == topic_pub_living_temp) = true := by decide
  have h2 : (topic_pub_bed_temp == topic_pub_living_temp) = false := by decide
  simp only [firing, List.filter, h1, h2]

theorem firing_filter_bed (p : Nat × Nat) :
    (firing p).filter (fun msg => msg.topic == topic_pub_bed_temp) =
      [⟨topic_pub_bed_temp, false, 1, tempBed p.2⟩] := by
  have h1 : (topic_pub_bed_temp == topic_pub_bed_temp) = true := by decide
  have h2 : (topic_pub_living_temp == topic_pub_bed_temp) = false := by decide
  simp only [firing, List.filter, h1, h2]

/-- Witness of C1: from `previousMillis = 0` the call at `now = 10000` fires, stores
`10000`, and a second call at the same instant does not fire. -/
theorem loop_tick_witness :
    ((0 : Nat) < 2 ^ 32 ∧ (10000 : Nat) < 2 ^ 32) ∧
    publishRan (loop ⟨0⟩ 10000 5 7) = true ∧
    (loop ⟨0⟩ 10000 5 7).1.previousMillis = 10000 ∧
    publishRan (loop (loop ⟨0⟩ 10000 5 7).1 10000 1 2) = false := by
  have h := loop_tick 0 10000 5 7 (by norm_num) (by norm_num)
  have hr : publishRan (loop ⟨0⟩ 10000 5 7) = true := h.1.mpr (by norm_num)
  exact ⟨⟨by norm_num, by norm_num⟩, hr, h.2.1 hr, h.2.2.2 hr 1 2⟩

/-- Witness of C10: `previousMillis = 4294967000` and an elapsed time of `10000` ms, so
that the clock has wrapped to `9704`; the publish block runs. -/
theorem loop_wraparound_witness :
    ((4294967000 : Nat) < 2 ^ 32 ∧ (10000 : Nat) < 2 ^ 32) ∧
    (4294967000 + 10000) % 2 ^ 32 = 9704 ∧
    publishRan (loop ⟨4294967000⟩ ((4294967000 + 10000) % 2 ^ 32) 5 7) = true :=
  ⟨⟨by norm_num, by norm_num⟩, by norm_num,
    (loop_wraparound 4294967000 10000 5 7 (by norm_num) (by norm_num)).mpr (by norm_num)⟩

/-- Counterexample to C6 as stated: in the run from `previousMillis = 0`, the window of the
10000 consecutive milliseconds `0, ..., 9999` contains no publish at all. -/
theorem first_window_no_publish : windowTrace sampleDraws 0 10000 = [] :=
  windowTrace_zero_eq_nil sampleDraws 10000 (Nat.le_refl 10000)

/-- C6, as amended.  Starting from `previousMillis = 0` with `loop()` called once at each
millisecond below `2 ^ 32`: the publish block runs at instant `now` exactly when `now` is a
positive multiple of 10000, and then publishes the two temperatures sampled in that call;
every window of 10000 consecutive milliseconds that starts at instant 1 or later contains
exactly one firing, hence exactly one publish on each temperature topic, carrying the value
sampled in that firing. -/
theorem periodic_publish (rnd : Nat → Nat × Nat) (now a : Nat)
    (hnow : now < 2 ^ 32) (ha : 1 ≤ a) (hb : a + 10000 ≤ 2 ^ 32) :
    (publishRan (loop (stateBefore rnd now) now (rnd now).1 (rnd now).2) = true ↔
        0 < now ∧ now % 10000 = 0) ∧
    (publishedAt rnd now ≠ [] → publishedAt rnd now =
        [⟨topic_pub_living_temp, false, 1, tempLiving (rnd now).1⟩,
         ⟨topic_pub_bed_temp, false, 1, tempBed (rnd now).2⟩]) ∧
    (∃ m, a ≤ m ∧ m < a + 10000 ∧ m % 10000 = 0 ∧
        windowTrace rnd a 10000 =
          [⟨topic_pub_living_temp, false, 1, tempLiving (rnd m).1⟩,
           ⟨topic_pub_bed_temp, false, 1, tempBed (rnd m).2⟩] ∧
        (windowTrace rnd a 10000).filter (fun msg => msg.topic == topic_pub_living_temp) =
          [⟨topic_pub_living_temp, false, 1, tempLiving (rnd m).1⟩] ∧
        (windowTrace rnd a 10000).filter (fun msg => msg.topic == topic_pub_bed_temp) =
          [⟨topic_pub_bed_temp, false, 1, tempBed (rnd m).2⟩]) := by
  have hnow' : now < ULONG_MOD := by unfold ULONG_MOD; omega
  have hb' : a + 10000 ≤ ULONG_MOD := by unfold ULONG_MOD; omega
  have hp := publishedAt_eq rnd now hnow'
  refine ⟨?_, ?_, ?_⟩
  · show (!(publishedAt rnd now).isEmpty) = true ↔ _
    rw [hp]
    by_cases hc : 0 < now ∧ now % 10000 = 0
    · simp [hc, firing]
    · simp only [hc, if_false, iff_false]
      simp
  · intro hne
    rw [hp] at hne ⊢
    by_cases hc : 0 < now ∧ now % 10000 = 0
    · simp only [hc, and_self, if_true, firing]
    · simp [hc] at hne
  · have hw := windowTrace_eq rnd a 10000 ha (Nat.le_refl _) hb'
    have hlt : 10000 * ((a + 9999) / 10000) < a + 10000 := by omega
    rw [if_pos hlt] at hw
    refine ⟨10000 * ((a + 9999) / 10000), by omega, hlt, by omega, ?_, ?_, ?_⟩
    · rw [hw]
      rfl
    · rw [hw]
      exact firing_filter_living _
    · rw [hw]
      exact firing_filter_bed _

/-- Witness of C6: with the draws 5 and 7 at every instant, the call at instant 10000
fires, and the window starting at instant 1 holds exactly the two messages of one firing. -/
theorem periodic_publish_witness :
    ((10000 : Nat) < 2 ^ 32 ∧ 1 ≤ 1 ∧ 1 + 10000 ≤ 2 ^ 32) ∧
    publishRan (loop (stateBefore sampleDraws 10000) 10000 5 7) = true ∧
    (∃ m, windowTrace sampleDraws 1 10000 =
          [⟨topic_pub_living_temp, false, 1, tempLiving (sampleDraws m).1⟩,
           ⟨topic_pub_bed_temp, false, 1, tempBed (sampleDraws m).2⟩]) := by
  have h := periodic_publish sampleDraws 10000 1 (by norm_num) (by norm_num) (by norm_num)
  obtain ⟨m, _, _, _, hm, _⟩ := h.2.2
  exact ⟨⟨by norm_num, by norm_num, by norm_num⟩, h.1.mpr (by norm_num), m, hm⟩

end MqttNode


namespace HttpNode

theorem beq_NUL_of_ne (c : Char) (h : c ≠ NUL) : (c == NUL) = false := by
  simpa using h

theorem strcmpEq_iff (a b : List Char) (ha : NUL ∉ a) (hb : NUL ∉ b) :
    strcmpEq a b = true ↔ a = b := by
  induction a generalizing b with
  | nil =>
    cases b with
    | nil => simp [strcmpEq]
    | cons y ys =>
      have hy : y ≠ NUL := fun e => hb (by simp [e])
      simp [strcmpEq, beq_NUL_of_ne y hy]
  | cons x xs ih =>
    have hx : x ≠ NUL := fun e => ha (by simp [e])
    have hxs : NUL ∉ xs := fun e => ha (by simp [e])
    cases b with
    | nil => simp [strcmpEq, beq_NUL_of_ne x hx]
    | cons y ys =>
      have hys : NUL ∉ ys := fun e => hb (by simp [e])
      by_cases hc : x = y
      · simp [strcmpEq, hc, beq_NUL_of_ne y (hc ▸ hx), ih ys hxs hys]
      · simp [strcmpEq, hc]

theorem equals_iff (s cstr : String) (hs : NUL ∉ s.data) (hc : NUL ∉ cstr.data) :
    equals s cstr = true ↔ s = cstr := by
  obtain ⟨a⟩ := s
  obtain ⟨b⟩ := cstr
  have hinj : (String.mk a = String.mk b) ↔ a = b := by
    constructor
    · intro h
      exact congrArg String.data h
    · intro h
      rw [h]
  rw [hinj]
  cases a with
  | nil =>
    cases b with
    | nil => simp [equals]
    | cons y ys =>
      have hy : y ≠ NUL := fun e => hc (by simp [e])
      simp [equals, beq_NUL_of_ne y hy]
  | cons x xs =>
    have h := strcmpEq_iff (x :: xs) b hs hc
    simpa [equals] using h

theorem equalsIgnoreCaseLoop_iff (a b : List Char) (h : a.length = b.length)
    (ha : NUL ∉ a) :
    equalsIgnoreCaseLoop a b = true ↔ a.map Char.toLower = b.map Char.toLower := by
  induction a generalizing b with
  | nil =>
    cases b with
    | nil => simp [equalsIgnoreCaseLoop]
    | cons y ys => simp at h
  | cons x xs ih =>
    have hx : x ≠ NUL := fun e => ha (by simp [e])
    have hxs : NUL ∉ xs := fun e => ha (by simp [e])
    cases b with
    | nil => simp at h
    | cons y ys =>
      have hl : xs.length = ys.length := by simpa using h
      by_cases hc : x.toLower = y.toLower
      · simp [equalsIgnoreCaseLoop, hc, beq_NUL_of_ne x hx, ih ys hl hxs]
      · simp [equalsIgnoreCaseLoop, hc, beq_NUL_of_ne x hx]

theorem equalsIgnoreCase_iff (s s2 : String) (hs : NUL ∉ s.data) :
    equalsIgnoreCase s s2 = true ↔ s.data.map Char.toLower = s2.data.map Char.toLower := by
  obtain ⟨a⟩ := s
  obtain ⟨b⟩ := s2
  show (if a.length != b.length then false
        else if a.length == 0 then true else equalsIgnoreCaseLoop a b) = true ↔
      a.map Char.toLower = b.map Char.toLower
  by_cases hl : a.length = b.length
  · rw [← equalsIgnoreCaseLoop_iff a b hl hs]
    by_cases h0 : a.length = 0
    · have ha : a = [] := List.length_eq_zero.mp h0
      have hb : b = [] := List.length_eq_zero.mp (hl ▸ h0)
      subst ha
      subst hb
      simp [equalsIgnoreCaseLoop]
    · have hb1 : (a.length != b.length) = false := by simp [hl]
      have hb2 : (a.length == 0) = false := by simp [h0]
      simp only [hb1, hb2, Bool.false_eq_true, if_false]
  · have hne : a.map Char.toLower ≠ b.map Char.toLower := by
      intro hc
      apply hl
      have := congrArg List.length hc
      simpa using this
    have hb : (a.length != b.length) = true := by simpa using hl
    rw [if_pos hb]
    constructor
    · intro h
      cases h
    · intro h
      exact absurd h hne

theorem nul_not_mem_of_map_toLower (a l : List Char) (h : a.map Char.toLower = l)
    (hl : NUL ∉ l) : NUL ∉ a := by
  intro hmem
  apply hl
  rw [← h]
  have e : Char.toLower NUL = NUL := by decide
  have := List.mem_map_of_mem Char.toLower hmem
  rwa [e] at this

theorem setHandler_state (args : Args) (h : hasArg args "val" = true)
    (hnul : NUL ∉ (arg args "val").data) :
    setHandler args =
      if (arg args "val").data.map Char.toLower = ['o', 'n'] ∨ arg args "val" = "1"
      then [Effect.digitalWrite ledPin 1, Effect.send 200 "text/plain" "ON"]
      else [Effect.digitalWrite ledPin 0, Effect.send 200 "text/plain" "OFF"] := by
  have hon := equalsIgnoreCase_iff (arg args "val") "ON" hnul
  have e : ("ON" : String).data.map Char.toLower = ['o', 'n'] := by decide
  rw [e] at hon
  have hone := equals_iff (arg args "val") "1" hnul (by decide)
  unfold setHandler
  simp only [h, if_true]
  by_cases hc : (arg args "val").data.map Char.toLower = ['o', 'n'] ∨ arg args "val" = "1"
  · have : (equalsIgnoreCase (arg args "val") "ON" || equals (arg args "val") "1") = true := by
      rcases hc with hc | hc
      · simp [hon.mpr hc]
      · simp [hone.mpr hc]
    rw [if_pos hc]
    simp [this]
  · have h1 : equalsIgnoreCase (arg args "val") "ON" = false := by
      cases hb : equalsIgnoreCase (arg args "val") "ON"
      · rfl
      · exact absurd (Or.inl (hon.mp hb)) hc
    have h2 : equals (arg args "val") "1" = false := by
      cases hb : equals (arg args "val") "1"
      · rfl
      · exact absurd (Or.inr (hone.mp hb)) hc
    rw [if_neg hc]
    simp [h1, h2]

/-- The library behaviour that makes the NUL-free condition necessary: a `val` of "1"
followed by a NUL character (sent as `1%00`) equals "1" under `strcmp`, and a `val` of "O"
followed by a NUL (sent as `O%00`) passes `equalsIgnoreCase("ON")`, whose loop stops at the
NUL; in both cases the handler switches the LED on. -/
theorem setHandler_nul_is_on :
    setHandler [("val", String.mk ['1', NUL])] =
      [Effect.digitalWrite ledPin 1, Effect.send 200 "text/plain" "ON"] ∧
    setHandler [("val", String.mk ['O', NUL])] =
      [Effect.digitalWrite ledPin 1, Effect.send 200 "text/plain" "ON"] := by
  decide

/-- C2.  In the `/set` handler, a `val` that is "ON" in any letter case or exactly "1" makes
the handler write 1 to the LED pin and answer 200 "ON"; a `val` that is "OFF" in any letter
case or exactly "0" makes it write 0 and answer 200 "OFF". -/
theorem setHandler_on_off (args : Args) (led : Nat) (hhas : hasArg args "val" = true) :
    (((arg args "val").data.map Char.toLower = ['o', 'n'] ∨ arg args "val" = "1") →
      setHandler args = [Effect.digitalWrite ledPin 1, Effect.send 200 "text/plain" "ON"] ∧
      ledLevel led (setHandler args) = 1) ∧
    (((arg args "val").data.map Char.toLower = ['o', 'f', 'f'] ∨ arg args "val" = "0") →
      setHandler args = [Effect.digitalWrite ledPin 0, Effect.send 200 "text/plain" "OFF"] ∧
      ledLevel led (setHandler args) = 0) := by
  constructor
  · intro h
    have hnul : NUL ∉ (arg args "val").data := by
      rcases h with h1 | h1
      · exact nul_not_mem_of_map_toLower _ _ h1 (by decide)
      · rw [h1]
        decide
    have hs := setHandler_state args hhas hnul
    rw [if_pos h] at hs
    rw [hs]
    exact ⟨rfl, by simp [ledLevel]⟩
  · intro h
    have hnul : NUL ∉ (arg args "val").data := by
      rcases h with h1 | h1
      · exact nul_not_mem_of_map_toLower _ _ h1 (by decide)
      · rw [h1]
        decide
    have hs := setHandler_state args hhas hnul
    have hn : ¬ ((arg args "val").data.map Char.toLower = ['o', 'n'] ∨ arg args "val" = "1") := by
      rintro (h1 | h1)
      · rcases h with h2 | h2
        · rw [h1] at h2
          simp at h2
        · rw [h2] at h1
          revert h1
          decide
      · rcases h with h2 | h2
        · rw [h1] at h2
          revert h2
          decide
        · rw [h1] at h2
          revert h2
          decide
    rw [if_neg hn] at hs
    rw [hs]
    exact ⟨rfl, by simp [ledLevel]⟩

/-- Witness of C2: `val=oN` switches the LED on and `val=OFF` switches it off. -/
theorem setHandler_on_off_witness :
    (hasArg [("val", "oN")] "val" = true ∧ hasArg [("val", "OFF")] "val" = true) ∧
    (setHandler [("val", "oN")] =
        [Effect.digitalWrite ledPin 1, Effect.send 200 "text/plain" "ON"] ∧
      ledLevel 0 (setHandler [("val", "oN")]) = 1) ∧
    (setHandler [("val", "OFF")] =
        [Effect.digitalWrite ledPin 0, Effect.send 200 "text/plain" "OFF"] ∧
      ledLevel 1 (setHandler [("val", "OFF")]) = 0) :=
  ⟨⟨by decide, by decide⟩,
    (setHandler_on_off [("val", "oN")] 0 (by decide)).1 (Or.inl (by decide)),
    (setHandler_on_off [("val", "OFF")] 1 (by decide)).2 (Or.inl (by decide))⟩

/-- Counterexample to C3 as stated: `val=banana` is not rejected.  The handler answers
200 "OFF" and writes 0 to the LED pin, which switches a lit LED off. -/
theorem setHandler_banana_not_rejected :
    setHandler [("val", "banana")] =
        [Effect.digitalWrite ledPin 0, Effect.send 200 "text/plain" "OFF"] ∧
    reportsSuccess (setHandler [("val", "banana")]) = true ∧
    writesLed (setHandler [("val", "banana")]) = true ∧
    ledLevel 1 (setHandler [("val", "banana")]) ≠ 1 := by
  decide

/-- C3, as amended.  In the `/set` handler, a `val` without an embedded NUL character that
is none of "ON"/"OFF" in any letter case, "1", "0" (and not "true" in any letter case) is
treated as Off: the handler writes 0 to the LED pin and answers 200 "OFF". -/
theorem setHandler_unrecognised_is_off (args : Args) (led : Nat)
    (hhas : hasArg args "val" = true)
    (hnul : NUL ∉ (arg args "val").data)
    (hon : (arg args "val").data.map Char.toLower ≠ ['o', 'n'])
    (_hoff : (arg args "val").data.map Char.toLower ≠ ['o', 'f', 'f'])
    (h1 : arg args "val" ≠ "1") (_h0 : arg args "val" ≠ "0")
    (_htrue : (arg args "val").data.map Char.toLower ≠ ['t', 'r', 'u', 'e']) :
    setHandler args = [Effect.digitalWrite ledPin 0, Effect.send 200 "text/plain" "OFF"] ∧
    ledLevel led (setHandler args) = 0 := by
  have hs := setHandler_state args hhas hnul
  have hn : ¬ ((arg args "val").data.map Char.toLower = ['o', 'n'] ∨ arg args "val" = "1") := by
    rintro (h | h)
    · exact hon h
    · exact h1 h
  rw [if_neg hn] at hs
  rw [hs]
  exact ⟨rfl, by simp [ledLevel]⟩

/-- Witness of C3 as amended, at `val=banana`. -/
theorem setHandler_unrecognised_is_off_witness :
    (hasArg [("val", "banana")] "val" = true ∧ NUL ∉ (arg [("val", "banana")] "val").data) ∧
    setHandler [("val", "banana")] =
        [Effect.digitalWrite ledPin 0, Effect.send 200 "text/plain" "OFF"] ∧
    ledLevel 1 (setHandler [("val", "banana")]) = 0 :=
  ⟨⟨by decide, by decide⟩,
    setHandler_unrecognised_is_off [("val", "banana")] 1 (by decide) (by decide) (by decide)
      (by decide) (by decide) (by decide) (by decide)⟩

/-- C7 (defect of the code).  The comment in the handler lists "true" among the inputs
handled as On, but the code compares only with "ON" and "1": at `val=true` the handler
writes 0 to the LED pin and answers 200 "OFF". -/
theorem setHandler_true_is_off :
    setHandler [("val", "true")] =
        [Effect.digitalWrite ledPin 0, Effect.send 200 "text/plain" "OFF"] ∧
    ledLevel 1 (setHandler [("val", "true")]) = 0 := by
  decide

/-- C4.  In the `/set` handler, a request that carries no argument named `val` is answered
with status 400 and the body "Missing 'val' argument", and the LED pin is not written. -/
theorem setHandler_missing_val (args : Args) (led : Nat) (h : ∀ p ∈ args, p.1 ≠ "val") :
    setHandler args = [Effect.send 400 "text/plain" "Missing 'val' argument"] ∧
    writesLed (setHandler args) = false ∧
    ledLevel led (setHandler args) = led := by
  have hno : hasArg args "val" = false := by
    unfold hasArg
    rw [List.any_eq_false]
    intro p hp
    simpa using h p hp
  have hs : setHandler args = [Effect.send 400 "text/plain" "Missing 'val' argument"] := by
    unfold setHandler
    simp [hno]
  rw [hs]
  exact ⟨rfl, by simp [writesLed], by simp [ledLevel]⟩

/-- Witness of C4: a request whose only argument is `x=1`. -/
theorem setHandler_missing_val_witness :
    (∀ p ∈ [(("x", "1") : String × String)], p.1 ≠ "val") ∧
    setHandler [("x", "1")] = [Effect.send 400 "text/plain" "Missing 'val' argument"] ∧
    writesLed (setHandler [("x", "1")]) = false ∧
    ledLevel 1 (setHandler [("x", "1")]) = 1 :=
  ⟨by decide, setHandler_missing_val [("x", "1")] 1 (by decide)⟩

theorem postCount_append (xs ys : List Effect) :
    postCount (xs ++ ys) = postCount xs + postCount ys := by
  induction xs with
  | nil => simp [postCount]
  | cons x xs ih =>
    cases x <;> simp [postCount, ih]
    omega

theorem postCount_setHandler (args : Args) : postCount (setHandler args) = 0 := by
  unfold setHandler
  split <;> simp [postCount]

theorem postCount_handleClient (pending : Option Args) :
    postCount (handleClient pending) = 0 := by
  cases pending with
  | none => simp [handleClient, postCount]
  | some args => simpa [handleClient] using postCount_setHandler args

/-- C5.  In the HTTP node's `loop()`, an iteration whose temperature read is NaN issues no
HTTP POST: the number of POST calls after the iteration equals the number before it, for
every Wi-Fi status, clock reading, pending request and earlier history. -/
theorem loop_nan_no_post (s : State) (i : Input) (history : List Effect)
    (hnan : i.t.isnan = true) :
    postCount (history ++ (loop s i).2) = postCount history := by
  rw [postCount_append]
  have h0 := postCount_handleClient i.pending
  have : postCount (loop s i).2 = 0 := by
    unfold loop
    simp only [hnan, if_true]
    split
    · simp [postCount_append, h0, postCount]
    · exact h0
  omega

/-- Witness of C5: Wi-Fi connected, interval elapsed, NaN read, after one earlier POST. -/
theorem loop_nan_no_post_witness :
    (nanInput.t.isnan = true) ∧
    postCount ([Effect.post pi_url ("Content-Type", "application/json") "x"] ++
      (loop ⟨0⟩ nanInput).2) =
    postCount [Effect.post pi_url ("Content-Type", "application/json") "x"] :=
  ⟨rfl, loop_nan_no_post ⟨0⟩ nanInput _ rfl⟩

theorem blockRan_setHandler (args : Args) :
    (setHandler args).any (fun e => e == Effect.readTemperature) = false := by
  unfold setHandler
  split <;> simp

theorem blockRan_handleClient (pending : Option Args) :
    (handleClient pending).any (fun e => e == Effect.readTemperature) = false := by
  cases pending with
  | none => simp [handleClient]
  | some args => simpa [handleClient] using blockRan_setHandler args

theorem toULong_2000 : toULong 2000 = 2000 := by
  decide

theorem loop_blockRan_iff (s : State) (i : Input) :
    blockRan (loop s i) = true ↔ 2000 < ulongSub i.millisCheck s.lastTime := by
  have h0 := blockRan_handleClient i.pending
  unfold loop blockRan
  rw [toULong_2000]
  by_cases hc : ulongSub i.millisCheck s.lastTime > 2000
  · simp only [hc, if_true]
    split
    · simp [hc]
    · split <;> simp [hc]
  · simp only [hc, if_false, h0]
    simp [hc]

/-- C8, as amended.  One call of the HTTP node's `loop()` as a scheduler tick over 32-bit
clock values: the sense/transmit block runs exactly when `now - lastTime` (modulo `2 ^ 32`)
is strictly greater than `2000`; on running, `lastTime` is set to the clock reading taken
inside the block; otherwise the state is unchanged. -/
theorem loop_tick_strict (s : State) (i : Input)
    (hl : s.lastTime < 2 ^ 32) (hn : i.millisCheck < 2 ^ 32) :
    (blockRan (loop s i) = true ↔
        ((i.millisCheck : Int) - (s.lastTime : Int)) % 2 ^ 32 > 2000) ∧
    (blockRan (loop s i) = true → (loop s i).1.lastTime = i.millisSet) ∧
    (blockRan (loop s i) = false → (loop s i).1 = s) := by
  have hl' : s.lastTime < ULONG_MOD := by unfold ULONG_MOD; omega
  have hn' : i.millisCheck < ULONG_MOD := by unfold ULONG_MOD; omega
  have key := ulongSub_eq_emod i.millisCheck s.lastTime hn' hl'
  have hiff := loop_blockRan_iff s i
  refine ⟨?_, ?_, ?_⟩
  · rw [hiff]
    simp only at key ⊢
    omega
  · intro h
    have h1 : ulongSub i.millisCheck s.lastTime > 2000 := hiff.mp h
    unfold loop
    rw [toULong_2000]
    simp only [h1, if_true]
    split
    · rfl
    · split <;> rfl
  · intro h
    have h1 : ¬ (ulongSub i.millisCheck s.lastTime > 2000) := by
      intro hc
      have := hiff.mpr hc
      simp [h] at this
    unfold loop
    rw [toULong_2000]
    simp only [h1, if_false]

/-- Counterexample to C8 as stated: with `lastTime = 0` and the clock reading `2000`
(so `now - lastTime ≥ 2000`), the sense/transmit block does not run. -/
theorem loop_at_2000_does_not_run :
    ulongSub 2000 0 ≥ 2000 ∧
    blockRan (loop ⟨0⟩ ⟨none, 2000, 2000, ⟨false, "21.00"⟩, true⟩) = false ∧
    (loop ⟨0⟩ ⟨none, 2000, 2000, ⟨false, "21.00"⟩, true⟩).1.lastTime = 0 := by
  decide

/-- Witness of C8 as amended: `lastTime = 0`, the check reads `2001`, the assignment reads
`2003`. -/
theorem loop_tick_strict_witness :
    ((0 : Nat) < 2 ^ 32 ∧ (2001 : Nat) < 2 ^ 32) ∧
    blockRan (loop ⟨0⟩ ⟨none, 2001, 2003, ⟨false, "21.00"⟩, true⟩) = true ∧
    (loop ⟨0⟩ ⟨none, 2001, 2003, ⟨false, "21.00"⟩, true⟩).1.lastTime = 2003 := by
  have h := loop_tick_strict ⟨0⟩ ⟨none, 2001, 2003, ⟨false, "21.00"⟩, true⟩
    (by norm_num) (by norm_num)
  have hr := h.1.mpr (by norm_num)
  exact ⟨⟨by norm_num, by norm_num⟩, hr, h.2.1 hr⟩

end HttpNode

namespace BleNode

/-- Counterexample to C9 as stated: when the BME680 is not ready at startup, the first
iteration of the main loop changes `temp_val` from 0 to 2550 and sends a notification. -/
theorem not_ready_notifies :
    main 0 0 false [⟨0, 2312, 4500⟩] = (⟨2550, 0⟩, [Effect.notifyTemp 2550]) := by
  decide

/-- C9, as amended.  In the BLE node's main loop, a failed `sensor_sample_fetch` (sensor
ready at startup) skips the cycle: nothing is notified and both values are kept.  When the
device was not ready at startup, every iteration stores the simulated 2550 in `temp_val`
and notifies the temperature characteristic with it; `humid_val` is kept and the humidity
characteristic is not notified. -/
theorem failed_read_behaviour (s : State) (i : Input) :
    (i.fetch ≠ 0 → mainLoopBody (sensorCheck true) s i = (s, [])) ∧
    mainLoopBody (sensorCheck false) s i = (⟨2550, s.humid_val⟩, [Effect.notifyTemp 2550]) := by
  constructor
  · intro h
    simp [mainLoopBody, sensorCheck, h]
  · simp [mainLoopBody, sensorCheck]

/-- Witness of C9 as amended: a fetch that returns `-5` while 2312 / 4500 are held. -/
theorem failed_read_behaviour_witness :
    ((-5 : Int) ≠ 0) ∧
    mainLoopBody (sensorCheck true) ⟨2312, 4500⟩ ⟨-5, 0, 0⟩ = (⟨2312, 4500⟩, []) :=
  ⟨by decide, (failed_read_behaviour ⟨2312, 4500⟩ ⟨-5, 0, 0⟩).1 (by decide)⟩

end BleNode
